import Mathlib

/-!
Shallow embedding of the YouTube summarizer agent (src/main.py and
src/agents/youtube_agent.py) together with the data model of its messages.

The repository ships the modules `src/main.py` and
`src/agents/youtube_agent.py`; the pydantic models imported from
`models.a2a` (A2AMessage, MessagePart, TaskResult, TaskStatus, Artifact,
MessageConfiguration, JSONRPCRequest, JSONRPCResponse) are not part of the
source tree, so their shapes are modelled from the specification (section 3,
DATA MODEL) and from the way the two shipped modules construct and read them.

External effects are made explicit parameters:
  - the transcript service (`YouTubeTranscriptApi.get_transcript`) becomes a
    function `String -> TranscriptOutcome`;
  - the summarization provider becomes a function
    `String -> Except PyExc String`;
  - fresh uuid4 values become explicit string arguments;
  - the webhook HTTP POST becomes a function `WebhookCall -> PostOutcome`,
    and the webhook sender returns the list of calls it performed;
  - a raised Python exception becomes `Except PyExc`.
-/

/-- Modelled from the spec: a Python exception value as far as the two
shipped modules distinguish exceptions.  `valueError` is `ValueError`;
`validationError` is pydantic `ValidationError`; `httpException` is fastapi
`HTTPException`; `typeError` is `TypeError`; `otherError` stands for every
other exception class. -/
inductive PyExc where
  | valueError (msg : String)
  | validationError (msg : String)
  | httpException (statusCode : Nat) (detail : String)
  | typeError (msg : String)
  | otherError (msg : String)
deriving DecidableEq

/-- Modelled from the spec: a nested item of a data part.  The source only
inspects whether an item is a mapping whose field kind equals text and whose
field text is a non-empty string; every other item shape is collapsed into
`nondict`. -/
inductive DataItem where
  | dict (kind : Option String) (text : Option String)
  | nondict
deriving DecidableEq

/-- Modelled from the spec: one part of a message, a tagged variant of a
text part and a data part (spec section 3). -/
structure MessagePart where
  kind : String
  text : Option String := none
  data : Option (List DataItem) := none
deriving DecidableEq

/-- Modelled from the spec: a message, an ordered sequence of parts with a
role and an optional task identifier (spec section 3). -/
structure A2AMessage where
  role : String
  parts : List MessagePart
  taskId : Option String := none
deriving DecidableEq

/-- Modelled from the spec: a named artifact of a completed task. -/
structure Artifact where
  name : String
  parts : List MessagePart
deriving DecidableEq

/-- Modelled from the spec: the status of a task, a state string together
with an optional message. -/
structure TaskStatus where
  state : String
  message : Option A2AMessage := none
deriving DecidableEq

/-- Modelled from the spec: the result envelope of one task. -/
structure TaskResult where
  id : String
  contextId : String
  status : TaskStatus
  artifacts : Option (List Artifact) := none
  history : Option (List A2AMessage) := none
deriving DecidableEq

/-- Modelled from the spec: the push-notification block of an execution
configuration, a callback url and a bearer token. -/
structure PushNotificationConfig where
  url : String
  token : String
deriving DecidableEq

/-- Modelled from the spec: the execution configuration,
`MessageConfiguration(blocking, pushNotificationConfig)`; the
push-notification block is optional and defaults to absent. -/
structure MessageConfiguration where
  blocking : Bool
  pushNotificationConfig : Option PushNotificationConfig := none
deriving DecidableEq

/-! ## The URL pattern

`url_pattern = re.compile(r'(https?://(www\.)?(youtube\.com/watch\?v=|youtu\.be/)[\w\-=&]+)')`

The pattern is embedded as a deterministic matcher.  The regex engine never
needs to backtrack on this pattern: the optional `s`, the optional `www.`
and the two host alternatives are decided by mutually exclusive literal
prefixes, and the final character class is greedy with nothing after it.
`\w` is modelled as ASCII alphanumerics plus underscore (the source uses
Unicode-aware `\w`; every claim only involves ASCII inputs). -/

/-- A character of the class `[\w\-=&]` (ASCII reading of `\w`). -/
def isUrlIdChar (c : Char) : Bool :=
  c.isAlphanum || c = '_' || c = '-' || c = '=' || c = '&'

/-- Drop a literal from the front of a character list, or fail. -/
def dropLit : List Char → List Char → Option (List Char)
  | [], s => some s
  | _ :: _, [] => none
  | p :: ps, c :: cs => if c = p then dropLit ps cs else none

/-- Try to match the whole URL pattern at the start of `s`; on success
return the matched characters (group 0 of the regex). -/
def matchUrlAt (s : List Char) : Option (List Char) :=
  let scheme? : Option (List Char × List Char) :=
    match dropLit "https://".toList s with
    | some r => some ("https://".toList, r)
    | none =>
      match dropLit "http://".toList s with
      | some r => some ("http://".toList, r)
      | none => none
  match scheme? with
  | none => none
  | some (scheme, r1) =>
    let www : List Char × List Char :=
      match dropLit "www.".toList r1 with
      | some r => ("www.".toList, r)
      | none => ([], r1)
    let host? : Option (List Char × List Char) :=
      match dropLit "youtube.com/watch?v=".toList www.2 with
      | some r => some ("youtube.com/watch?v=".toList, r)
      | none =>
        match dropLit "youtu.be/".toList www.2 with
        | some r => some ("youtu.be/".toList, r)
        | none => none
    match host? with
    | none => none
    | some (host, r2) =>
      let idChars := r2.takeWhile isUrlIdChar
      if idChars.isEmpty then none
      else some (scheme ++ www.1 ++ host ++ idChars)

/-- Scan positions left to right, returning the leftmost match
(`re.search` semantics). -/
def searchUrlFrom : List Char → Option String
  | [] => none
  | c :: cs =>
    match matchUrlAt (c :: cs) with
    | some m => some (String.mk m)
    | none => searchUrlFrom cs

/-- `url_pattern.search(text)` followed by `match.group(0)`. -/
def url_pattern_search (text : String) : Option String :=
  searchUrlFrom text.toList

/-! ## urlparse

A model of `urllib.parse.urlparse` restricted to what `_get_video_id`
reads: scheme splitting, the netloc after `//`, fragment and query
splitting, and the `hostname` accessor (userinfo and port stripped,
lowercased; ASCII lowercasing models the source for the hosts at issue). -/

structure ParsedUrl where
  scheme : Option String
  netloc : String
  path : String
  query : String
  fragment : String
deriving DecidableEq

/-- A character allowed inside a URL scheme (letters, digits, plus,
hyphen, dot). -/
def isSchemeChar (c : Char) : Bool :=
  c.isAlpha || c.isDigit || c = '+' || c = '-' || c = '.'

/-- Split a leading `scheme:` off a URL, as `urlsplit` does: the text
before the first colon is a scheme when it is non-empty, starts with a
letter and consists of scheme characters only. -/
def splitScheme (l : List Char) : Option String × List Char :=
  match l.findIdx? (· = ':') with
  | none => (none, l)
  | some i =>
    if i = 0 then (none, l)
    else
      let before := l.take i
      match before with
      | [] => (none, l)
      | c0 :: _ =>
        if c0.isAlpha && before.all isSchemeChar then
          (some (String.mk (before.map Char.toLower)), l.drop (i + 1))
        else (none, l)

/-- Split a leading `//netloc` off the rest of the URL: the netloc runs to
the next slash, question mark or hash. -/
def splitNetloc (l : List Char) : List Char × List Char :=
  match l with
  | '/' :: '/' :: rest =>
    let netloc := rest.takeWhile fun c => c ≠ '/' && c ≠ '?' && c ≠ '#'
    (netloc, rest.drop netloc.length)
  | _ => ([], l)

/-- Split a list at the first occurrence of `sep`; the second component is
present exactly when `sep` occurs. -/
def splitAtChar (sep : Char) : List Char → List Char × Option (List Char)
  | [] => ([], none)
  | c :: rest =>
    if c = sep then ([], some rest)
    else
      let r := splitAtChar sep rest
      (c :: r.1, r.2)

/-- `urllib.parse.urlparse`: scheme, netloc, path, query, fragment. -/
def urlparse (url : String) : ParsedUrl :=
  let l := url.toList
  let s := splitScheme l
  let n := splitNetloc s.2
  let f := splitAtChar '#' n.2
  let q := splitAtChar '?' f.1
  ⟨s.1, String.mk n.1, String.mk q.1, String.mk (q.2.getD []),
    String.mk (f.2.getD [])⟩

/-- The `hostname` accessor of a parse result: the netloc after the last
at-sign, up to the first colon, lowercased; absent when empty. -/
def ParsedUrl.hostname (u : ParsedUrl) : Option String :=
  let n := u.netloc.toList
  let afterAt := (n.reverse.takeWhile (· ≠ '@')).reverse
  let host := (afterAt.takeWhile (· ≠ ':')).map Char.toLower
  if host.isEmpty then none else some (String.mk host)

/-! ## parse_qs -/

/-- A hexadecimal digit value. -/
def hexVal? (c : Char) : Option Nat :=
  if '0' ≤ c ∧ c ≤ '9' then some (c.toNat - 48)
  else if 'a' ≤ c ∧ c ≤ 'f' then some (c.toNat - 87)
  else if 'A' ≤ c ∧ c ≤ 'F' then some (c.toNat - 55)
  else none

/-- `urllib.parse.unquote_plus` on characters: plus becomes space, a
percent escape becomes the escaped byte (modelled for single-byte
code points; the source additionally UTF-8 decodes multi-byte runs,
which no claim exercises). -/
def unquoteChars : List Char → List Char
  | [] => []
  | '+' :: rest => ' ' :: unquoteChars rest
  | '%' :: h1 :: h2 :: rest =>
    match hexVal? h1, hexVal? h2 with
    | some a, some b => Char.ofNat (16 * a + b) :: unquoteChars rest
    | _, _ => '%' :: unquoteChars (h1 :: h2 :: rest)
  | c :: rest => c :: unquoteChars rest

/-- `unquote_plus` on strings. -/
def unquote_plus (s : String) : String :=
  String.mk (unquoteChars s.toList)

/-- Python `str.split` with a one-character separator, on character
lists: an empty list yields one empty field, and every separator starts a
new field. -/
def splitOnChar (sep : Char) : List Char → List (List Char)
  | [] => [[]]
  | c :: rest =>
    let r := splitOnChar sep rest
    if c = sep then [] :: r
    else
      match r with
      | [] => [[c]]
      | a :: as => (c :: a) :: as

/-- Python `str.split` with a one-character separator, on strings. -/
def pySplitChar (sep : Char) (s : String) : List String :=
  (splitOnChar sep s.toList).map String.mk

/-- `urllib.parse.parse_qsl(query)` with default arguments: split on
ampersands, skip empty fields, keep only fields with an equals sign and a
non-empty value (blank values are dropped), unquote names and values,
preserve order. -/
def parse_qsl_pairs (query : String) : List (String × String) :=
  (splitOnChar '&' query.toList).filterMap fun field =>
    if field.isEmpty then none
    else
      match splitAtChar '=' field with
      | (_, none) => none
      | (name, some value) =>
        if value.isEmpty then none
        else some (String.mk (unquoteChars name), String.mk (unquoteChars value))

/-- `parse_qs(query).get(v, [None])[0]`: the first value bound to the name
v, absent when the name never occurs with a non-blank value. -/
def qs_first_v (query : String) : Option String :=
  ((parse_qsl_pairs query).find? fun kv => kv.1 = "v").map fun kv => kv.2

/-- Python slicing `s[:n]` on a string. -/
def pySlice (s : String) (n : Nat) : String :=
  String.mk (s.toList.take n)

/-- Python slicing `s[n:]` on a string. -/
def pyDrop (s : String) (n : Nat) : String :=
  String.mk (s.toList.drop n)

/-! ## _get_video_id -/

/-- `YouTubeSummarizerAgent._get_video_id` (src/agents/youtube_agent.py):
resolve a watch URL, a short URL, an embed URL or a `/v/` URL to a video
id; any other shape (or an empty url) yields absent. -/
def get_video_id (url : String) : Option String :=
  if url = "" then none
  else
    let query := urlparse url
    if query.hostname = some "youtu.be" then some (pyDrop query.path 1)
    else
      if query.hostname = some "www.youtube.com" ∨
          query.hostname = some "youtube.com" then
        if query.path = "/watch" then qs_first_v query.query
        else if pySlice query.path 7 = "/embed/" then
          some ((pySplitChar '/' query.path).getD 2 "")
        else if pySlice query.path 3 = "/v/" then
          some ((pySplitChar '/' query.path).getD 2 "")
        else none
      else none

/-! ## _find_youtube_url_in_message -/

/-- The test applied to one nested item of a data part: the item must be a
mapping whose kind is text and whose text is truthy, and the URL pattern
must match inside that text. -/
def item_url_match (item : DataItem) : Option String :=
  match item with
  | .dict (some "text") (some t) => if t = "" then none else url_pattern_search t
  | _ => none

/-- The test applied to one message part in the scan loop: a text part
with truthy text is searched directly; a data part holding a list is
scanned item by item in reverse order; everything else yields nothing. -/
def part_url_match (part : MessagePart) : Option String :=
  if part.kind = "text" then
    match part.text with
    | some t => if t = "" then none else url_pattern_search t
    | none => none
  else
    if part.kind = "data" then
      match part.data with
      | some items => items.reverse.findSome? item_url_match
      | none => none
    else none

/-- `YouTubeSummarizerAgent._find_youtube_url_in_message`: scan the parts
in reverse insertion order and return the first URL-pattern match. -/
def find_youtube_url_in_message (message : A2AMessage) : Option String :=
  message.parts.reverse.findSome? part_url_match

/-! ## _get_transcript_from_api -/

/-- The outcome of one call to the external
`YouTubeTranscriptApi.get_transcript`: a list of segments (each carrying a
text field), or one of the two caption exceptions, or any other failure. -/
inductive TranscriptOutcome where
  | ok (segments : List String)
  | transcriptsDisabled
  | noTranscriptFound
  | otherFailure
deriving DecidableEq

/-- Join a list of strings with single spaces, preserving order
(the join in `_get_transcript_from_api`). -/
def joinSpace : List String → String
  | [] => ""
  | [s] => s
  | s :: rest => s ++ " " ++ joinSpace rest

/-- `YouTubeSummarizerAgent._get_transcript_from_api`: fetch the segment
list and join the segment texts with spaces; the two caption exceptions
and every other failure are converted to `ValueError` with fixed
human-readable texts. -/
def get_transcript_from_api (fetch : String → TranscriptOutcome)
    (video_id : String) : Except PyExc String :=
  match fetch video_id with
  | .ok segments => .ok (joinSpace segments)
  | .transcriptsDisabled =>
    .error (.valueError
      "A transcript is not available for this video. Captions may be disabled.")
  | .noTranscriptFound =>
    .error (.valueError
      "A transcript is not available for this video. Captions may be disabled.")
  | .otherFailure =>
    .error (.valueError
      "An unexpected error occurred while trying to get the video transcript.")

/-- The `ValueError` text `_get_transcript_from_api` produces for each
failing outcome of the external call (the `ok` arm is never consulted). -/
def transcriptFailText : TranscriptOutcome → String
  | .ok _ => ""
  | .transcriptsDisabled =>
    "A transcript is not available for this video. Captions may be disabled."
  | .noTranscriptFound =>
    "A transcript is not available for this video. Captions may be disabled."
  | .otherFailure =>
    "An unexpected error occurred while trying to get the video transcript."

/-! ## process_message -/

/-- A message part with kind text, as constructed by the pipeline. -/
def textPart (s : String) : MessagePart :=
  ⟨"text", some s, none⟩

/-- The clause `except ValueError as e` of the blocking pipeline: a
`ValueError` becomes a failed task result carrying the error text; every
other exception keeps propagating. -/
def value_error_to_failed (message : A2AMessage) (task_id context_id : String)
    (e : PyExc) : Except PyExc TaskResult :=
  match e with
  | .valueError error_text =>
    let error_message : A2AMessage := ⟨"agent", [textPart error_text], some task_id⟩
    .ok ⟨task_id, context_id,
      ⟨"failed", some error_message⟩, none, some [message, error_message]⟩
  | e => .error e

/-- The blocking branch of `YouTubeSummarizerAgent.process_message`.
`fetch` is the external transcript service, `summarize` the configured
summarization provider, and `taskUuid` and `contextUuid` the two fresh
`uuid4` draws of the invocation.  The two validation raises sit OUTSIDE
the try block in the source, so they surface as errors here; only the
transcript and summarization steps are guarded by `except ValueError`. -/
def process_message_blocking (fetch : String → TranscriptOutcome)
    (summarize : String → Except PyExc String)
    (taskUuid contextUuid : String) (message : A2AMessage) :
    Except PyExc TaskResult :=
  let task_id := message.taskId.getD taskUuid
  let context_id := contextUuid
  match find_youtube_url_in_message message with
  | none => .error (.valueError "No valid YouTube URL found in the message.")
  | some extracted_url =>
    match get_video_id extracted_url with
    | none =>
      .error (.valueError "Could not extract a valid video ID from the URL.")
    | some video_id =>
      if video_id = "" then
        .error (.valueError "Could not extract a valid video ID from the URL.")
      else
        match get_transcript_from_api fetch video_id with
        | .error e => value_error_to_failed message task_id context_id e
        | .ok transcript =>
          match summarize transcript with
          | .error e => value_error_to_failed message task_id context_id e
          | .ok summary =>
            let response_message : A2AMessage :=
              ⟨"agent", [textPart summary], some task_id⟩
            let artifacts : List Artifact :=
              [⟨"summary", [textPart summary]⟩,
               ⟨"full_transcript", [textPart transcript]⟩]
            .ok ⟨task_id, context_id,
              ⟨"completed", some response_message⟩, some artifacts,
              some [message, response_message]⟩

/-- A job handed to `background_tasks.add_task`: the captured arguments of
`_do_summarization_and_notify`. -/
structure ScheduledJob where
  message : A2AMessage
  url : String
  token : String
deriving DecidableEq

/-- `YouTubeSummarizerAgent.process_message`.  The second component lists
the jobs added to the background-task scheduler.  The non-blocking branch
is taken exactly when `config.blocking` is falsy, the push-notification
block is present (truthy) and a scheduler argument was passed (truthy);
otherwise the blocking branch runs and nothing is scheduled. -/
def process_message (fetch : String → TranscriptOutcome)
    (summarize : String → Except PyExc String)
    (taskUuid contextUuid : String) (message : A2AMessage)
    (config : MessageConfiguration) (background_tasks : Option Unit) :
    Except PyExc TaskResult × List ScheduledJob :=
  match config.blocking, config.pushNotificationConfig, background_tasks with
  | false, some pc, some _ =>
    let task_id := message.taskId.getD taskUuid
    let context_id := contextUuid
    (.ok ⟨task_id, context_id, ⟨"working", none⟩, none, none⟩,
      [⟨message, pc.url, pc.token⟩])
  | _, _, _ =>
    (process_message_blocking fetch summarize taskUuid contextUuid message, [])

/-! ## _send_webhook_notification and _do_summarization_and_notify -/

/-- One webhook POST: the callback url, the JSON payload (the status
message), and the bearer token of the Authorization header. -/
structure WebhookCall where
  url : String
  payload : A2AMessage
  bearerToken : String
deriving DecidableEq

/-- The outcome of one webhook POST as `httpx` reports it: a success, or
an `httpx.HTTPError` (connection failure or, via `raise_for_status`, a
non-success status). -/
inductive PostOutcome where
  | success
  | httpError (msg : String)
deriving DecidableEq

/-- `YouTubeSummarizerAgent._send_webhook_notification`: when the status
of the result carries a message, POST exactly that message once, with the
bearer token; otherwise perform no call.  An `httpx.HTTPError` from the
POST is caught and logged, so the function returns normally either way;
the returned list records the calls performed. -/
def send_webhook_notification (post : WebhookCall → PostOutcome)
    (url token : String) (result : TaskResult) : List WebhookCall :=
  match result.status.message with
  | some message =>
    let call : WebhookCall := ⟨url, message, token⟩
    match post call with
    | .success => [call]
    | .httpError _ => [call]
  | none => []

/-- `YouTubeSummarizerAgent._do_summarization_and_notify`, the body of a
scheduled job: re-run the pipeline with `MessageConfiguration(blocking=True)`
and no scheduler, then hand the final result to the webhook sender.  When
the pipeline raises, the job itself faults and no webhook call happens. -/
def do_summarization_and_notify (fetch : String → TranscriptOutcome)
    (summarize : String → Except PyExc String)
    (post : WebhookCall → PostOutcome)
    (taskUuid contextUuid : String) (job : ScheduledJob) :
    Except PyExc (List WebhookCall) :=
  match (process_message fetch summarize taskUuid contextUuid job.message
      ⟨true, none⟩ none).1 with
  | .error e => .error e
  | .ok final_result =>
    .ok (send_webhook_notification post job.url job.token final_result)

/-! ## The RPC endpoint (src/main.py) -/

/-- Modelled from the spec: the `params` of a `message/send` request, as
far as the endpoint reads them (it only ever accesses `params.message`). -/
structure MessageSendParams where
  message : A2AMessage
deriving DecidableEq

/-- Modelled from the spec: a validated JSON-RPC request envelope, with
the fields the endpoint reads. -/
structure JSONRPCRequest where
  id : Option String
  method : String
  params : MessageSendParams
deriving DecidableEq

/-- The inbound body after the pydantic step `JSONRPCRequest(**body)`:
either a validated request, or a validation failure (the raw id of the
body dict is kept for the error envelope). -/
inductive ParsedBody where
  | valid (req : JSONRPCRequest)
  | invalid (id : Option String) (validationMsg : String)
deriving DecidableEq

/-- The `id` the generic error path reads back off the raw body dict. -/
def ParsedBody.rawId : ParsedBody → Option String
  | .valid req => req.id
  | .invalid i _ => i

/-- Python `str(e)` for the exceptions the endpoint can catch.  A
starlette `HTTPException` prints as `statusCode: detail`. -/
def pyExcStr : PyExc → String
  | .valueError m => m
  | .validationError m => m
  | .httpException code detail => toString code ++ ": " ++ detail
  | .typeError m => m
  | .otherError m => m

/-- The response of the endpoint, as the transport layer sees it: a
JSON-RPC success envelope, an HTTP client error raised through
`HTTPException`, or the structured JSON-RPC internal-error envelope
returned with HTTP status 500. -/
inductive EndpointResponse where
  | rpcOk (id : Option String) (result : TaskResult)
  | httpError (statusCode : Nat) (detail : String)
  | internalError (id : Option String) (code : Int) (message : String) (data : String)
deriving DecidableEq

/-- The try block of `a2a_endpoint` in src/main.py.  A non-matching
method raises `HTTPException(400, ...)`.  For a matching method the
source calls `agent.process_message(message=rpc_request.params.message)`;
the signature of `process_message` declares `config` as a required
positional parameter with no default, so the call raises `TypeError`
before the pipeline body runs, whatever the message is. -/
def a2a_endpoint_try (body : ParsedBody) :
    Except PyExc (Option String × TaskResult) :=
  match body with
  | .invalid _ msg => .error (.validationError msg)
  | .valid rpc =>
    if rpc.method ≠ "message/send" then
      .error (.httpException 400 "Method must be \x27message/send\x27")
    else
      .error (.typeError
        "YouTubeSummarizerAgent.process_message() missing 1 required positional argument: \x27config\x27")

/-- `a2a_endpoint` in src/main.py.  A pydantic `ValidationError` is
answered with `HTTPException(422, ...)` raised from its own handler
(which the following generic handler does not catch).  Every other
exception raised inside the try block — including the `HTTPException(400)`
for a wrong method, since fastapi `HTTPException` derives from
`Exception` — is caught by the generic handler and turned into the
JSON-RPC internal-error envelope with code -32603. -/
def a2a_endpoint (body : ParsedBody) : EndpointResponse :=
  match a2a_endpoint_try body with
  | .ok (i, r) => .rpcOk i r
  | .error (.validationError msg) => .httpError 422 msg
  | .error e =>
    .internalError body.rawId (-32603) "Internal error" (pyExcStr e)

/-! ## Concrete fixtures

Deterministic stubs and small concrete inputs used by the witness and
counterexample theorems below. -/

/-- A transcript service stub that always succeeds with two segments. -/
def fetchOk : String → TranscriptOutcome := fun _ => .ok ["hello", "world"]

/-- A transcript service stub whose call always raises
`TranscriptsDisabled`. -/
def fetchDisabled : String → TranscriptOutcome := fun _ => .transcriptsDisabled

/-- A deterministic summarization stub. -/
def summOk : String → Except PyExc String := fun t => .ok ("sum: " ++ t)

/-- A webhook POST stub that always succeeds. -/
def postOk : WebhookCall → PostOutcome := fun _ => .success

/-- A webhook POST stub that always fails with an `httpx.HTTPError`. -/
def postFail : WebhookCall → PostOutcome := fun _ => .httpError "boom"

/-- A message without any YouTube-shaped URL. -/
def msgNoUrl : A2AMessage := ⟨"user", [textPart "hello world"], none⟩

/-- A message whose only URL matches the pattern but carries no video id:
the query string binds v to a blank value. -/
def msgBadId : A2AMessage :=
  ⟨"user", [textPart "https://youtube.com/watch?v=&a"], none⟩

/-- A message carrying one valid short URL, with no task identifier. -/
def msgWithUrl : A2AMessage :=
  ⟨"user", [textPart "watch https://youtu.be/abc123 please"], none⟩

/-- A fallback used only to totalize projections out of `Except`. -/
def fallbackTaskResult : TaskResult := ⟨"", "", ⟨"", none⟩, none, none⟩

/-- A fallback message for totalizing `Option` projections. -/
def fallbackMessage : A2AMessage := ⟨"", [], none⟩

/-- Unwrap a pipeline result known to be a normal return. -/
def okOf : Except PyExc TaskResult → TaskResult
  | .ok r => r
  | .error _ => fallbackTaskResult

/-- The final result of the background pipeline run on `msgWithUrl` with
uuids u1 and c1. -/
def rBgFinal : TaskResult :=
  okOf (process_message_blocking fetchOk summOk "u1" "c1" msgWithUrl)

/-- The status message of `rBgFinal`. -/
def mBgFinal : A2AMessage := rBgFinal.status.message.getD fallbackMessage

/-- The scheduled job a non-blocking submission of `msgWithUrl` creates. -/
def jobFix : ScheduledJob := ⟨msgWithUrl, "https://cb.example/hook", "tok123"⟩

/-- First blocking run of `msgWithUrl` with uuids uA and cA. -/
def r1Fix : TaskResult :=
  okOf (process_message_blocking fetchOk summOk "uA" "cA" msgWithUrl)

/-- Second blocking run of the same message with uuids uB and cB. -/
def r2Fix : TaskResult :=
  okOf (process_message_blocking fetchOk summOk "uB" "cB" msgWithUrl)

/-- A full `process_message` blocking run of `msgWithUrl`. -/
def rC10Fix : TaskResult :=
  okOf (process_message fetchOk summOk "u0" "c0" msgWithUrl ⟨true, none⟩ none).1

deriving instance DecidableEq for Except

/-- Whether an endpoint response is the JSON-RPC success envelope. -/
def EndpointResponse.isSuccess : EndpointResponse → Bool
  | .rpcOk _ _ => true
  | _ => false

/-! ## Helper lemmas -/

/-- Every normal return of the blocking pipeline is either the completed
envelope built from a summary and a transcript, or the failed envelope
built from an error text; in both shapes the ids are the task id and the
fresh context uuid of the invocation. -/
theorem blocking_ok_shape (fetch : String → TranscriptOutcome)
    (summarize : String → Except PyExc String) (u c : String)
    (m : A2AMessage) (r : TaskResult)
    (h : process_message_blocking fetch summarize u c m = .ok r) :
    (∃ summary transcript,
      r = ⟨m.taskId.getD u, c,
        ⟨"completed", some ⟨"agent", [textPart summary], some (m.taskId.getD u)⟩⟩,
        some [⟨"summary", [textPart summary]⟩,
          ⟨"full_transcript", [textPart transcript]⟩],
        some [m, ⟨"agent", [textPart summary], some (m.taskId.getD u)⟩]⟩) ∨
    (∃ etext,
      r = ⟨m.taskId.getD u, c,
        ⟨"failed", some ⟨"agent", [textPart etext], some (m.taskId.getD u)⟩⟩,
        none,
        some [m, ⟨"agent", [textPart etext], some (m.taskId.getD u)⟩]⟩) := by
  simp only [process_message_blocking] at h
  cases hf : find_youtube_url_in_message m with
  | none => simp [hf] at h
  | some url =>
    simp only [hf] at h
    cases hv : get_video_id url with
    | none => simp [hv] at h
    | some vid =>
      simp only [hv] at h
      by_cases hne : vid = ""
      · rw [if_pos hne] at h; simp at h
      · rw [if_neg hne] at h
        cases ht : get_transcript_from_api fetch vid with
        | error e =>
          simp only [ht] at h
          cases e with
          | valueError etext =>
            simp only [value_error_to_failed] at h
            exact Or.inr ⟨etext, (Except.ok.inj h).symm⟩
          | validationError msg => simp [value_error_to_failed] at h
          | httpException a b => simp [value_error_to_failed] at h
          | typeError msg => simp [value_error_to_failed] at h
          | otherError msg => simp [value_error_to_failed] at h
        | ok transcript =>
          simp only [ht] at h
          cases hs : summarize transcript with
          | error e =>
            simp only [hs] at h
            cases e with
            | valueError etext =>
              simp only [value_error_to_failed] at h
              exact Or.inr ⟨etext, (Except.ok.inj h).symm⟩
            | validationError msg => simp [value_error_to_failed] at h
            | httpException a b => simp [value_error_to_failed] at h
            | typeError msg => simp [value_error_to_failed] at h
            | otherError msg => simp [value_error_to_failed] at h
          | ok summary =>
            simp only [hs] at h
            exact Or.inl ⟨summary, transcript, (Except.ok.inj h).symm⟩

/-- The context identifier of every normal return of the blocking
pipeline is exactly the fresh context uuid of that invocation. -/
theorem blocking_ok_contextId (fetch : String → TranscriptOutcome)
    (summarize : String → Except PyExc String) (u c : String)
    (m : A2AMessage) (r : TaskResult)
    (h : process_message_blocking fetch summarize u c m = .ok r) :
    r.contextId = c := by
  rcases blocking_ok_shape fetch summarize u c m r h with ⟨s, t, rfl⟩ | ⟨e, rfl⟩ <;> rfl

/-- The artifacts component of the blocking pipeline does not depend on
the two uuid draws: two runs on the same message with the same stubs
agree on artifacts (and on the error, when they raise). -/
theorem blocking_map_artifacts (fetch : String → TranscriptOutcome)
    (summarize : String → Except PyExc String) (u1 c1 u2 c2 : String)
    (m : A2AMessage) :
    Except.map (fun r => r.artifacts)
      (process_message_blocking fetch summarize u1 c1 m) =
    Except.map (fun r => r.artifacts)
      (process_message_blocking fetch summarize u2 c2 m) := by
  unfold process_message_blocking
  cases hf : find_youtube_url_in_message m with
  | none => simp only [hf]
  | some url =>
    simp only [hf]
    cases hv : get_video_id url with
    | none => simp only [hv]
    | some vid =>
      simp only [hv]
      by_cases hne : vid = ""
      · simp [hne]
      · cases ht : get_transcript_from_api fetch vid with
        | error e =>
          cases e <;> simp [ht, hne, value_error_to_failed, Except.map]
        | ok transcript =>
          cases hs : summarize transcript with
          | error e =>
            cases e <;> simp [ht, hs, hne, value_error_to_failed, Except.map]
          | ok summary => simp [ht, hs, hne, Except.map]

/-- The artifacts of a normal blocking return are present exactly for the
completed state, and then are the summary and full-transcript pair. -/
theorem blocking_ok_artifacts_iff (fetch : String → TranscriptOutcome)
    (summarize : String → Except PyExc String) (u c : String)
    (m : A2AMessage) (r : TaskResult)
    (h : process_message_blocking fetch summarize u c m = .ok r) :
    (r.artifacts.isSome = true ↔ r.status.state = "completed") ∧
    (r.status.state = "completed" →
      r.artifacts.map (fun as => as.map fun a => a.name) =
        some ["summary", "full_transcript"]) := by
  rcases blocking_ok_shape fetch summarize u c m r h with ⟨s, t, rfl⟩ | ⟨e, rfl⟩
  · exact ⟨by simp, fun _ => rfl⟩
  · refine ⟨⟨fun hh => ?_, fun hh => ?_⟩, fun hh => ?_⟩ <;> simp at hh

/-- The parse of the empty URL has no hostname. -/
theorem urlparse_empty_hostname : (urlparse "").hostname = none := by decide

/-- A path that starts with the three characters of the v-prefix cannot
also start with the seven characters of the embed-prefix. -/
theorem slice3_v_not_embed (s : String) (h3 : pySlice s 3 = "/v/") :
    pySlice s 7 ≠ "/embed/" := by
  intro h7
  have h3l : s.toList.take 3 = ['/', 'v', '/'] := by
    have h := congrArg String.toList h3
    simpa [pySlice] using h
  have h7l : s.toList.take 7 = ['/', 'e', 'm', 'b', 'e', 'd', '/'] := by
    have h := congrArg String.toList h7
    simpa [pySlice] using h
  have hmin : (s.toList.take 7).take 3 = s.toList.take 3 := by
    rw [List.take_take]
    norm_num
  rw [h7l, h3l] at hmin
  simp at hmin

/-! ## Claim theorems -/

/-- C1 (code evaluation at the failing inputs): for a blocking invocation
on a message without any YouTube-shaped URL, and on a message whose
extracted URL yields no video id, `process_message` does NOT return a
failed TaskResult: the two validation raises sit outside the try block in
the source, so the `ValueError` propagates to the caller as an unhandled
fault. -/
theorem c1_validation_error_propagates :
    process_message fetchOk summOk "u0" "c0" msgNoUrl ⟨true, none⟩ none =
      (.error (.valueError "No valid YouTube URL found in the message."), []) ∧
    process_message fetchOk summOk "u0" "c0" msgBadId ⟨true, none⟩ none =
      (.error (.valueError "Could not extract a valid video ID from the URL."), []) :=
  ⟨by decide, by decide⟩

/-- C2 (counterexample): with `blocking=false` and a present
push-notification block but no background-task scheduler supplied (its
default), `process_message` schedules nothing and runs the blocking
pipeline to completion instead of returning the immediate working
acknowledgment the claim demands. -/
theorem c2_nonblocking_counterexample :
    (process_message fetchOk summOk "u0" "c0" msgWithUrl
      ⟨false, some ⟨"https://cb.example/hook", "tok123"⟩⟩ none).2 = [] ∧
    Except.map (fun r => r.status.state)
      (process_message fetchOk summOk "u0" "c0" msgWithUrl
        ⟨false, some ⟨"https://cb.example/hook", "tok123"⟩⟩ none).1 =
      .ok "completed" :=
  ⟨rfl, by decide⟩

/-- C2 (amended): non-blocking execution requires `blocking=false`, a
present push-notification block AND a supplied scheduler; then the
pipeline schedules one job and immediately returns a working TaskResult
with no message, artifacts or history.  In every other combination the
blocking behavior runs and nothing is scheduled.  A scheduled job whose
inner pipeline run returns a result whose status carries a message hands
exactly that status message to the Notifier. -/
theorem c2_nonblocking_amended :
    (∀ (fetch : String → TranscriptOutcome)
        (summarize : String → Except PyExc String) (u c : String)
        (m : A2AMessage) (pc : PushNotificationConfig) (bg : Unit),
      process_message fetch summarize u c m ⟨false, some pc⟩ (some bg) =
        (.ok ⟨m.taskId.getD u, c, ⟨"working", none⟩, none, none⟩,
          [⟨m, pc.url, pc.token⟩])) ∧
    (∀ (fetch : String → TranscriptOutcome)
        (summarize : String → Except PyExc String) (u c : String)
        (m : A2AMessage) (config : MessageConfiguration) (bg : Option Unit),
      config.blocking = true ∨ config.pushNotificationConfig = none ∨ bg = none →
      process_message fetch summarize u c m config bg =
        (process_message_blocking fetch summarize u c m, [])) ∧
    (∀ (fetch : String → TranscriptOutcome)
        (summarize : String → Except PyExc String)
        (post : WebhookCall → PostOutcome) (u c : String) (job : ScheduledJob)
        (r : TaskResult) (pm : A2AMessage),
      process_message_blocking fetch summarize u c job.message = .ok r →
      r.status.message = some pm →
      do_summarization_and_notify fetch summarize post u c job =
        .ok [⟨job.url, pm, job.token⟩]) := by
  refine ⟨fun fetch summarize u c m pc bg => rfl, ?_, ?_⟩
  · intro fetch summarize u c m config bg h
    obtain ⟨blocking, push⟩ := config
    rcases h with h | h | h
    · simp only at h
      subst h
      rfl
    · simp only at h
      subst h
      cases blocking <;> rfl
    · subst h
      cases blocking <;> cases push <;> rfl
  · intro fetch summarize post u c job r pm h hm
    unfold do_summarization_and_notify
    have hb : (process_message fetch summarize u c job.message ⟨true, none⟩ none).1 =
        process_message_blocking fetch summarize u c job.message := rfl
    rw [hb, h]
    simp only [send_webhook_notification, hm]
    cases post ⟨job.url, pm, job.token⟩ <;> rfl

/-- C2 (amended, witness): the fallback and the notification clause of the
amended claim evaluated at concrete inputs: a blocking configuration is
processed by the blocking pipeline with nothing scheduled, and running the
scheduled job for `msgWithUrl` posts exactly the final status message. -/
theorem c2_nonblocking_amended_witness :
    process_message fetchOk summOk "u0" "c0" msgWithUrl ⟨true, none⟩ none =
      (process_message_blocking fetchOk summOk "u0" "c0" msgWithUrl, []) ∧
    do_summarization_and_notify fetchOk summOk postOk "u1" "c1" jobFix =
      .ok [⟨jobFix.url, mBgFinal, jobFix.token⟩] :=
  ⟨c2_nonblocking_amended.2.1 fetchOk summOk "u0" "c0" msgWithUrl
      ⟨true, none⟩ none (Or.inl rfl),
    c2_nonblocking_amended.2.2 fetchOk summOk postOk "u1" "c1" jobFix
      rBgFinal mBgFinal (by decide) (by decide)⟩

/-- C3: whenever the URL extraction and video-id resolution succeed but
the transcript retrieval fails, the blocking pipeline catches the failure
and returns a failed TaskResult carrying a human-readable message; for the
two caption exceptions that message states captions are unavailable, and
for any other retrieval failure it is the generic text.  No
transcript-retrieval failure propagates as a fault. -/
theorem c3_transcript_failure_failed :
    ∀ (fetch : String → TranscriptOutcome)
      (summarize : String → Except PyExc String) (u c : String)
      (m : A2AMessage) (url vid : String),
      find_youtube_url_in_message m = some url →
      get_video_id url = some vid →
      vid ≠ "" →
      (∀ segments, fetch vid ≠ .ok segments) →
      (process_message_blocking fetch summarize u c m =
        .ok ⟨m.taskId.getD u, c,
          ⟨"failed", some ⟨"agent", [textPart (transcriptFailText (fetch vid))],
            some (m.taskId.getD u)⟩⟩,
          none,
          some [m, ⟨"agent", [textPart (transcriptFailText (fetch vid))],
            some (m.taskId.getD u)⟩]⟩) ∧
      ((fetch vid = .transcriptsDisabled ∨ fetch vid = .noTranscriptFound) →
        transcriptFailText (fetch vid) =
          "A transcript is not available for this video. Captions may be disabled.") ∧
      (fetch vid = .otherFailure →
        transcriptFailText (fetch vid) =
          "An unexpected error occurred while trying to get the video transcript.") := by
  intro fetch summarize u c m url vid hf hv hne hfail
  refine ⟨?_, ?_, ?_⟩
  · cases hfv : fetch vid with
    | ok segments => exact absurd hfv (hfail segments)
    | transcriptsDisabled =>
      simp [process_message_blocking, hf, hv, hne, get_transcript_from_api,
        hfv, value_error_to_failed, transcriptFailText]
    | noTranscriptFound =>
      simp [process_message_blocking, hf, hv, hne, get_transcript_from_api,
        hfv, value_error_to_failed, transcriptFailText]
    | otherFailure =>
      simp [process_message_blocking, hf, hv, hne, get_transcript_from_api,
        hfv, value_error_to_failed, transcriptFailText]
  · intro hd
    rcases hd with h | h <;> rw [h] <;> rfl
  · intro h
    rw [h]
    rfl

/-- C3 (witness): the pipeline run on `msgWithUrl` against a transcript
service whose call raises `TranscriptsDisabled`. -/
theorem c3_transcript_failure_failed_witness :
    (process_message_blocking fetchDisabled summOk "u0" "c0" msgWithUrl =
      .ok ⟨msgWithUrl.taskId.getD "u0", "c0",
        ⟨"failed", some ⟨"agent",
          [textPart (transcriptFailText (fetchDisabled "abc123"))],
          some (msgWithUrl.taskId.getD "u0")⟩⟩,
        none,
        some [msgWithUrl, ⟨"agent",
          [textPart (transcriptFailText (fetchDisabled "abc123"))],
          some (msgWithUrl.taskId.getD "u0")⟩]⟩) ∧
    ((fetchDisabled "abc123" = .transcriptsDisabled ∨
        fetchDisabled "abc123" = .noTranscriptFound) →
      transcriptFailText (fetchDisabled "abc123") =
        "A transcript is not available for this video. Captions may be disabled.") ∧
    (fetchDisabled "abc123" = .otherFailure →
      transcriptFailText (fetchDisabled "abc123") =
        "An unexpected error occurred while trying to get the video transcript.") :=
  c3_transcript_failure_failed fetchDisabled summOk "u0" "c0" msgWithUrl
    "https://youtu.be/abc123" "abc123" (by decide) (by decide) (by decide)
    (fun segments h => nomatch h)

/-- C4: the extractor scans parts in reverse insertion order, and nested
items of a data part in reverse order, returning the first URL-pattern
match: a message whose last part matches yields that match whatever the
earlier parts hold; a message none of whose parts match yields absent; and
a data part whose last nested item matches yields that match. -/
theorem c4_reverse_scan :
    (∀ (role : String) (ps : List MessagePart) (p : MessagePart)
        (tid : Option String) (u : String),
      part_url_match p = some u →
      find_youtube_url_in_message ⟨role, ps ++ [p], tid⟩ = some u) ∧
    (∀ m : A2AMessage, (∀ p ∈ m.parts, part_url_match p = none) →
      find_youtube_url_in_message m = none) ∧
    (∀ (t? : Option String) (items : List DataItem) (it : DataItem) (u : String),
      item_url_match it = some u →
      part_url_match ⟨"data", t?, some (items ++ [it])⟩ = some u) := by
  refine ⟨?_, ?_, ?_⟩
  · intro role ps p tid u h
    simp [find_youtube_url_in_message, List.findSome?_cons, h]
  · intro m hall
    apply List.findSome?_eq_none_iff.mpr
    intro p hp
    exact hall p (List.mem_reverse.mp hp)
  · intro t? items it u h
    simp [part_url_match, List.findSome?_cons, h]

/-- C4 (witness): a message with two text parts each holding a different
valid URL yields the match from the last part in insertion order. -/
theorem c4_reverse_scan_witness :
    find_youtube_url_in_message
      ⟨"user", [textPart "first https://youtu.be/first1"] ++
        [textPart "second https://youtu.be/second2"], none⟩ =
      some "https://youtu.be/second2" :=
  c4_reverse_scan.1 "user" [textPart "first https://youtu.be/first1"]
    (textPart "second https://youtu.be/second2") none
    "https://youtu.be/second2" (by decide)

/-- C5 (code evaluation at the failing input): a validated request whose
method is not message/send is NOT answered with a client error: the
`HTTPException(400)` raised inside the try block is itself an `Exception`,
so the generic handler catches it and returns the JSON-RPC internal-error
envelope with code -32603. -/
theorem c5_method_rejection_eval :
    a2a_endpoint (.valid ⟨some "1", "tasks/get", ⟨msgWithUrl⟩⟩) =
      .internalError (some "1") (-32603) "Internal error"
        "400: Method must be \x27message/send\x27" := rfl

/-- C6: `_get_video_id` resolves, for host youtu.be, the path with its
first character stripped; for the two youtube.com hosts, the first
non-blank v query parameter when the path is /watch, and the third
slash-separated path segment when the path starts with /embed/ or /v/;
every other shape, and the empty url, resolves to absent.  Concretely,
the watch URL with id abc123 yields abc123, the short URL with id xyz789
yields xyz789, and an unrelated URL yields absent. -/
theorem c6_resolve_video_id :
    (∀ url : String, (urlparse url).hostname = some "youtu.be" →
      get_video_id url = some (pyDrop (urlparse url).path 1)) ∧
    (∀ url : String,
      ((urlparse url).hostname = some "www.youtube.com" ∨
        (urlparse url).hostname = some "youtube.com") →
      (urlparse url).path = "/watch" →
      get_video_id url = qs_first_v (urlparse url).query) ∧
    (∀ url : String,
      ((urlparse url).hostname = some "www.youtube.com" ∨
        (urlparse url).hostname = some "youtube.com") →
      pySlice (urlparse url).path 7 = "/embed/" →
      get_video_id url = some ((pySplitChar '/' (urlparse url).path).getD 2 "")) ∧
    (∀ url : String,
      ((urlparse url).hostname = some "www.youtube.com" ∨
        (urlparse url).hostname = some "youtube.com") →
      pySlice (urlparse url).path 3 = "/v/" →
      get_video_id url = some ((pySplitChar '/' (urlparse url).path).getD 2 "")) ∧
    (∀ url : String,
      (urlparse url).hostname ≠ some "youtu.be" →
      (urlparse url).hostname ≠ some "www.youtube.com" →
      (urlparse url).hostname ≠ some "youtube.com" →
      get_video_id url = none) ∧
    (∀ url : String,
      ((urlparse url).hostname = some "www.youtube.com" ∨
        (urlparse url).hostname = some "youtube.com") →
      (urlparse url).path ≠ "/watch" →
      pySlice (urlparse url).path 7 ≠ "/embed/" →
      pySlice (urlparse url).path 3 ≠ "/v/" →
      get_video_id url = none) ∧
    (get_video_id "https://www.youtube.com/watch?v=abc123" = some "abc123" ∧
      get_video_id "https://youtu.be/xyz789" = some "xyz789" ∧
      get_video_id "https://example.com/page" = none) := by
  refine ⟨?_, ?_, ?_, ?_, ?_, ?_, by decide, by decide, by decide⟩
  · intro url hhost
    by_cases hu : url = ""
    · rw [hu, urlparse_empty_hostname] at hhost
      simp at hhost
    · simp [get_video_id, hu, hhost]
  · intro url hhost hpath
    by_cases hu : url = ""
    · rcases hhost with h | h <;> rw [hu, urlparse_empty_hostname] at h <;> simp at h
    · rcases hhost with h | h <;> simp [get_video_id, hu, h, hpath]
  · intro url hhost hp7
    have hw : (urlparse url).path ≠ "/watch" := by
      intro contra
      rw [contra] at hp7
      exact absurd hp7 (by decide)
    by_cases hu : url = ""
    · rcases hhost with h | h <;> rw [hu, urlparse_empty_hostname] at h <;> simp at h
    · rcases hhost with h | h <;> simp [get_video_id, hu, h, hw, hp7]
  · intro url hhost hp3
    have hw : (urlparse url).path ≠ "/watch" := by
      intro contra
      rw [contra] at hp3
      exact absurd hp3 (by decide)
    have h7 : pySlice (urlparse url).path 7 ≠ "/embed/" :=
      slice3_v_not_embed (urlparse url).path hp3
    by_cases hu : url = ""
    · rcases hhost with h | h <;> rw [hu, urlparse_empty_hostname] at h <;> simp at h
    · rcases hhost with h | h <;> simp [get_video_id, hu, h, hw, h7, hp3]
  · intro url h1 h2 h3
    by_cases hu : url = ""
    · simp [get_video_id, hu]
    · simp [get_video_id, hu, h1, h2, h3]
  · intro url hhost hw h7 h3
    by_cases hu : url = ""
    · rcases hhost with h | h <;> rw [hu, urlparse_empty_hostname] at h <;> simp at h
    · rcases hhost with h | h <;> simp [get_video_id, hu, h, hw, h7, h3]

/-- C6 (witness): the short-URL clause applied to the concrete URL
`https://youtu.be/xyz789`. -/
theorem c6_resolve_video_id_witness :
    get_video_id "https://youtu.be/xyz789" =
      some (pyDrop (urlparse "https://youtu.be/xyz789").path 1) :=
  c6_resolve_video_id.1 "https://youtu.be/xyz789" (by decide)

/-- C7: the webhook sender performs no network call when the status of
the result carries no message; when it carries one, it POSTs exactly that
status message (not the whole envelope) once to the callback url with the
bearer token, whatever the outcome of the POST — a failure is neither
retried (the call list has one element) nor surfaced (the sender returns
normally for every POST outcome). -/
theorem c7_notifier_delivery :
    (∀ (post : WebhookCall → PostOutcome) (url token : String) (r : TaskResult),
      r.status.message = none →
      send_webhook_notification post url token r = []) ∧
    (∀ (post : WebhookCall → PostOutcome) (url token : String) (r : TaskResult)
        (pm : A2AMessage),
      r.status.message = some pm →
      send_webhook_notification post url token r = [⟨url, pm, token⟩]) := by
  constructor
  · intro post url token r h
    simp [send_webhook_notification, h]
  · intro post url token r pm h
    simp only [send_webhook_notification, h]
    cases post ⟨url, pm, token⟩ <;> rfl

/-- C7 (witness): delivering the final result of a concrete pipeline run
over a failing POST still sends exactly the status message once. -/
theorem c7_notifier_delivery_witness :
    send_webhook_notification postFail "https://cb.example/hook" "tok123" rBgFinal =
      [⟨"https://cb.example/hook", mBgFinal, "tok123"⟩] :=
  c7_notifier_delivery.2 postFail "https://cb.example/hook" "tok123" rBgFinal
    mBgFinal (by decide)

/-- C8: two blocking runs of the pipeline on the same message with the
same deterministic stubs and distinct fresh context uuids return results
whose context identifiers are exactly the respective fresh uuids (never
derived from the task id) — hence differ — while the artifact content is
equal. -/
theorem c8_context_freshness :
    ∀ (fetch : String → TranscriptOutcome)
      (summarize : String → Except PyExc String) (u1 c1 u2 c2 : String)
      (m : A2AMessage) (r1 r2 : TaskResult),
      process_message_blocking fetch summarize u1 c1 m = .ok r1 →
      process_message_blocking fetch summarize u2 c2 m = .ok r2 →
      c1 ≠ c2 →
      r1.contextId = c1 ∧ r2.contextId = c2 ∧
        r1.contextId ≠ r2.contextId ∧ r1.artifacts = r2.artifacts := by
  intro fetch summarize u1 c1 u2 c2 m r1 r2 h1 h2 hne
  have hc1 := blocking_ok_contextId fetch summarize u1 c1 m r1 h1
  have hc2 := blocking_ok_contextId fetch summarize u2 c2 m r2 h2
  have hart := blocking_map_artifacts fetch summarize u1 c1 u2 c2 m
  rw [h1, h2] at hart
  simp only [Except.map] at hart
  exact ⟨hc1, hc2, by rw [hc1, hc2]; exact hne, Except.ok.inj hart⟩

/-- C8 (witness): the two concrete runs of `msgWithUrl` with uuids
(uA, cA) and (uB, cB). -/
theorem c8_context_freshness_witness :
    r1Fix.contextId = "cA" ∧ r2Fix.contextId = "cB" ∧
      r1Fix.contextId ≠ r2Fix.contextId ∧ r1Fix.artifacts = r2Fix.artifacts :=
  c8_context_freshness fetchOk summOk "uA" "cA" "uB" "cB" msgWithUrl r1Fix r2Fix
    (by decide) (by decide) (by decide)

/-- C9: for every validated request with method message/send, the call
into the pipeline omits the required config argument, so the endpoint
returns the structured internal-error envelope with code -32603; and no
request whatsoever is answered with the JSON-RPC success envelope, so the
non-blocking execution mode is unreachable through the external
interface. -/
theorem c9_endpoint_internal_error :
    (∀ (i : Option String) (p : MessageSendParams),
      a2a_endpoint (.valid ⟨i, "message/send", p⟩) =
        .internalError i (-32603) "Internal error"
          "YouTubeSummarizerAgent.process_message() missing 1 required positional argument: \x27config\x27") ∧
    (∀ b : ParsedBody, (a2a_endpoint b).isSuccess = false) := by
  constructor
  · intro i p
    rfl
  · intro b
    cases b with
    | invalid j msg => rfl
    | valid rpc =>
      by_cases hm : rpc.method = "message/send" <;>
        simp [a2a_endpoint, a2a_endpoint_try, hm, EndpointResponse.isSuccess]

/-- C10: a TaskResult returned normally by `process_message` carries
artifacts exactly when its state is completed, and then carries exactly
the two artifacts named summary and full_transcript; failed and working
results never carry artifacts. -/
theorem c10_artifacts_iff_completed :
    ∀ (fetch : String → TranscriptOutcome)
      (summarize : String → Except PyExc String) (u c : String)
      (m : A2AMessage) (config : MessageConfiguration) (bg : Option Unit)
      (r : TaskResult),
      (process_message fetch summarize u c m config bg).1 = .ok r →
      ((r.artifacts.isSome = true ↔ r.status.state = "completed") ∧
        (r.status.state = "completed" →
          r.artifacts.map (fun as => as.map fun a => a.name) =
            some ["summary", "full_transcript"])) := by
  intro fetch summarize u c m config bg r h
  obtain ⟨blocking, push⟩ := config
  cases blocking with
  | true => exact blocking_ok_artifacts_iff fetch summarize u c m r h
  | false =>
    cases push with
    | none => exact blocking_ok_artifacts_iff fetch summarize u c m r h
    | some pc =>
      cases bg with
      | none => exact blocking_ok_artifacts_iff fetch summarize u c m r h
      | some bgv =>
        simp only [process_message] at h
        obtain rfl := (Except.ok.inj h).symm
        refine ⟨⟨fun hh => ?_, fun hh => ?_⟩, fun hh => ?_⟩ <;> simp at hh

/-- C10 (witness): a concrete completed blocking run. -/
theorem c10_artifacts_iff_completed_witness :
    (rC10Fix.artifacts.isSome = true ↔ rC10Fix.status.state = "completed") ∧
    (rC10Fix.status.state = "completed" →
      rC10Fix.artifacts.map (fun as => as.map fun a => a.name) =
        some ["summary", "full_transcript"]) :=
  c10_artifacts_iff_completed fetchOk summOk "u0" "c0" msgWithUrl ⟨true, none⟩
    none rC10Fix (by decide)
